import Mathlib

/-!
Verification of the session/provenance subsystem (`src/session.py`) of the
Indica repository.  The Python source is shallowly embedded: each Python
function or method becomes a Lean definition over explicit state, Python
exceptions become `Except PyError`, `datetime.datetime.now()` values become
`Nat` parameters supplied by the environment, and the external collaborators
(the `prov` document library, described by the specification as an abstract
append-only document, and `hashlib.sha256`) are modelled as pure data.
-/

/-- Python exceptions that the embedded code can raise.  `userError` stands
for an arbitrary exception raised by a wrapped computation function. -/
inductive PyError where
  | valueError (msg : String)
  | typeError (msg : String)
  | attributeError (msg : String)
  | nameError (msg : String)
  | indexError (msg : String)
  | keyError (msg : String)
  | userError (msg : String)
deriving DecidableEq, Repr

/-- A PROV agent node; `identifier` is its qualified identifier
(e.g. `orcid:...`). -/
structure ProvAgent where
  identifier : String
deriving DecidableEq, Repr

/-- A PROV entity node. -/
structure ProvEntity where
  identifier : String
deriving DecidableEq, Repr

/-- Attribute values stored on an activity node: the source stores either
strings (`str(...)` results, the function name) or Python `None`. -/
inductive AttrVal where
  | strA (s : String)
  | noneA
deriving DecidableEq, Repr

/-- A PROV activity node with start time, optional end time and its
attribute dictionary. -/
structure ProvActivity where
  identifier : String
  startTime : Nat
  endTime : Option Nat
  attributes : List (String × AttrVal)
deriving DecidableEq, Repr

/-- The provenance Document.  Modelled from the spec: the `prov` package is
an external collaborator which the specification scopes in only "as an
abstract append-only document" holding Agent/Activity/Entity nodes and
directed, duplicable relation edges.  Edges store the identifiers of their
endpoints. -/
structure ProvDocument where
  defaultNamespace : String
  namespaces : List (String × String)
  agents : List ProvAgent
  activities : List ProvActivity
  entities : List ProvEntity
  associations : List (String × String)
  delegations : List (String × String)
  generations : List (String × String × Nat)
  attributions : List (String × String)
deriving DecidableEq, Repr

/-- `prov.ProvDocument.agent`: append an agent node. -/
def recordAgent (d : ProvDocument) (a : ProvAgent) : ProvDocument :=
  { d with agents := d.agents ++ [a] }

/-- `prov.ProvDocument.activity`: append an activity node. -/
def recordActivity (d : ProvDocument) (a : ProvActivity) : ProvDocument :=
  { d with activities := d.activities ++ [a] }

/-- `prov.ProvDocument.entity`: append an entity node. -/
def recordEntity (d : ProvDocument) (e : ProvEntity) : ProvDocument :=
  { d with entities := d.entities ++ [e] }

/-- `prov.ProvDocument.association(activity, agent)`: append an
association edge. -/
def recordAssociation (d : ProvDocument) (act : ProvActivity) (ag : ProvAgent) :
    ProvDocument :=
  { d with associations := d.associations ++ [(act.identifier, ag.identifier)] }

/-- `delegate.actedOnBehalfOf(delegator)`: append a delegation edge
`(delegate, delegator)`. -/
def recordDelegation (d : ProvDocument) (delegate delegator : ProvAgent) :
    ProvDocument :=
  { d with delegations := d.delegations ++ [(delegate.identifier, delegator.identifier)] }

/-- `entity.wasGeneratedBy(activity, time)`: append a generation edge. -/
def recordGeneration (d : ProvDocument) (e : ProvEntity) (act : ProvActivity)
    (t : Nat) : ProvDocument :=
  { d with generations := d.generations ++ [(e.identifier, act.identifier, t)] }

/-- `entity.wasAttributedTo(agent)`: append an attribution edge. -/
def recordAttribution (d : ProvDocument) (e : ProvEntity) (ag : ProvAgent) :
    ProvDocument :=
  { d with attributions := d.attributions ++ [(e.identifier, ag.identifier)] }

/-- Number of nodes held by a Document (agents, activities and entities). -/
def nodeCount (d : ProvDocument) : Nat :=
  d.agents.length + d.activities.length + d.entities.length

/-- Number of `actedOnBehalfOf (delegate, delegator)` edges in the Document
between the two given agent identifiers. -/
def countDelegations (d : ProvDocument) (delegate delegator : String) : Nat :=
  (d.delegations.filter (fun p => p.1 == delegate && p.2 == delegator)).length

/-- The state of one `Session` object: its provenance document `prov`, its
session-level activity `session` and the agent stack `_user` (named `user`
here).  The `old_global_session` attribute used by scoped activation is
modelled separately by `ScopeWorld` below. -/
structure Session where
  prov : ProvDocument
  session : ProvActivity
  user : List ProvAgent
deriving DecidableEq, Repr

/-- `Session.agent` (property): `self._user[-1]`; raises `IndexError` on an
empty list. -/
def Session.agent (s : Session) : Except PyError ProvAgent :=
  match s.user.getLast? with
  | some a => Except.ok a
  | none => Except.error (PyError.indexError "list index out of range")

/-- `Session.push_agent`: `agent.actedOnBehalfOf(self._user[-1])` (recording
a delegation edge in the document) and then `self._user.append(agent)`. -/
def Session.push_agent (s : Session) (agent : ProvAgent) : Except PyError Session :=
  match s.user.getLast? with
  | some cur =>
      Except.ok { s with prov := recordDelegation s.prov agent cur,
                         user := s.user ++ [agent] }
  | none => Except.error (PyError.indexError "list index out of range")

/-- `Session.pop_agent`: `return self._user.pop()`; `list.pop` removes and
returns the last element and raises `IndexError` on an empty list. -/
def Session.pop_agent (s : Session) : Except PyError (ProvAgent × Session) :=
  match s.user.getLast? with
  | some a => Except.ok (a, { s with user := s.user.dropLast })
  | none => Except.error (PyError.indexError "pop from empty list")

/-- Embedded Python values that flow through the instrumented code: `None`,
numbers, strings, tuples, `xarray.DataArray` objects (with their `name`,
their optional `attrs["provenance"]` entity and the sub-arrays produced by
iterating them) and `Session` objects (so that a session can be passed as
the `sess` keyword argument). -/
inductive PyVal where
  | noneV
  | intV (n : Int)
  | strV (s : String)
  | tup (elems : List PyVal)
  | dataArray (name : String) (provenance : Option ProvEntity) (elems : List PyVal)
  | sessionV (s : Session)
deriving Repr

/-!
SHA-256 (FIPS 180-4), the hash used by `hashlib.sha256` in the source.
Machine words are `Nat` reduced modulo `2 ^ 32`.
-/

/-- Reduce a natural number to a 32-bit word. -/
def w32 (n : Nat) : Nat := n % 4294967296

/-- Right rotation of a 32-bit word by `n` places. -/
def rotr32 (n x : Nat) : Nat := x / 2 ^ n + x % 2 ^ n * 2 ^ (32 - n)

/-- SHA-256 choice function. -/
def shaCh (x y z : Nat) : Nat := (x &&& y) ^^^ ((x ^^^ 4294967295) &&& z)

/-- SHA-256 majority function. -/
def shaMaj (x y z : Nat) : Nat := (x &&& y) ^^^ (x &&& z) ^^^ (y &&& z)

/-- SHA-256 big Sigma-0. -/
def bigSigma0 (x : Nat) : Nat := rotr32 2 x ^^^ rotr32 13 x ^^^ rotr32 22 x

/-- SHA-256 big Sigma-1. -/
def bigSigma1 (x : Nat) : Nat := rotr32 6 x ^^^ rotr32 11 x ^^^ rotr32 25 x

/-- SHA-256 small sigma-0. -/
def smallSigma0 (x : Nat) : Nat := rotr32 7 x ^^^ rotr32 18 x ^^^ x / 2 ^ 3

/-- SHA-256 small sigma-1. -/
def smallSigma1 (x : Nat) : Nat := rotr32 17 x ^^^ rotr32 19 x ^^^ x / 2 ^ 10

/-- The 64 SHA-256 round constants, written in decimal. -/
def shaK : List Nat :=
  [1116352408, 1899447441, 3049323471, 3921009573, 961987163,
   1508970993, 2453635748, 2870763221, 3624381080, 310598401,
   607225278, 1426881987, 1925078388, 2162078206, 2614888103,
   3248222580, 3835390401, 4022224774, 264347078, 604807628,
   770255983, 1249150122, 1555081692, 1996064986, 2554220882,
   2821834349, 2952996808, 3210313671, 3336571891, 3584528711,
   113926993, 338241895, 666307205, 773529912, 1294757372,
   1396182291, 1695183700, 1986661051, 2177026350, 2456956037,
   2730485921, 2820302411, 3259730800, 3345764771, 3516065817,
   3600352804, 4094571909, 275423344, 430227734, 506948616,
   659060556, 883997877, 958139571, 1322822218, 1537002063,
   1747873779, 1955562222, 2024104815, 2227730452, 2361852424,
   2428436474, 2756734187, 3204031479, 3329325298]

/-- The SHA-256 initial hash value, written in decimal. -/
def shaH0 : List Nat :=
  [1779033703, 3144134277, 1013904242, 2773480762,
   1359893119, 2600822924, 528734635, 1541459225]

/-- Big-endian byte decomposition of `n` into `k` bytes. -/
def beBytes : Nat → Nat → List Nat
  | 0, _ => []
  | Nat.succ k, n => beBytes k (n / 256) ++ [n % 256]

/-- Merkle–Damgard padding: append `0x80`, zero bytes up to 56 mod 64 and
the 8-byte big-endian bit length. -/
def shaPad (msg : List Nat) : List Nat :=
  let L := msg.length
  let k := (120 - (L + 1) % 64) % 64
  msg ++ [128] ++ List.replicate k 0 ++ beBytes 8 (8 * L)

/-- Group a byte list into big-endian 32-bit words. -/
def toWords : List Nat → List Nat
  | b0 :: b1 :: b2 :: b3 :: rest =>
      (((b0 * 256 + b1) * 256 + b2) * 256 + b3) :: toWords rest
  | _ => []

/-- Extend the 16-word message schedule by the given number of words. -/
def shaExtend : Nat → Array Nat → Array Nat
  | 0, acc => acc
  | Nat.succ k, acc =>
      let i := acc.size
      let w := w32 (smallSigma1 (acc.getD (i - 2) 0) + acc.getD (i - 7) 0 +
                    smallSigma0 (acc.getD (i - 15) 0) + acc.getD (i - 16) 0)
      shaExtend k (acc.push w)

/-- One SHA-256 compression round; the state is the eight working words. -/
def shaRound (st : List Nat) (kw : Nat × Nat) : List Nat :=
  match st with
  | [a, b, c, d, e, f, g, h] =>
      let t1 := w32 (h + bigSigma1 e + shaCh e f g + kw.1 + kw.2)
      let t2 := w32 (bigSigma0 a + shaMaj a b c)
      [w32 (t1 + t2), a, b, c, w32 (d + t1), e, f, g]
  | other => other

/-- Split a list into chunks of 64 with an explicit fuel argument. -/
def chunksGo : Nat → List Nat → List (List Nat)
  | 0, _ => []
  | Nat.succ _, [] => []
  | Nat.succ k, l => l.take 64 :: chunksGo k (l.drop 64)

/-- SHA-256 of a byte list, producing the 32 digest bytes. -/
def sha256bytes (msg : List Nat) : List Nat :=
  let padded := shaPad msg
  let chunks := chunksGo padded.length padded
  let final := chunks.foldl
    (fun hs ch =>
      let ws := (shaExtend 48 (toWords ch).toArray).toList
      let st := (shaK.zip ws).foldl shaRound hs
      List.zipWith (fun x y => w32 (x + y)) hs st)
    shaH0
  (final.map (beBytes 4)).flatten

/-- Lower-case hexadecimal digit. -/
def hexChar (n : Nat) : Char :=
  if n < 10 then Char.ofNat (48 + n) else Char.ofNat (87 + n)

/-- Lower-case hexadecimal rendering of a byte list. -/
def bytesHex (bs : List Nat) : String :=
  String.mk ((bs.map (fun b => [hexChar (b / 16), hexChar (b % 16)])).flatten)

/-- UTF-8 encoding of one character. -/
def charUtf8 (c : Char) : List Nat :=
  let n := c.toNat
  if n < 128 then [n]
  else if n < 2048 then [192 + n / 64, 128 + n % 64]
  else if n < 65536 then [224 + n / 4096, 128 + n / 64 % 64, 128 + n % 64]
  else [240 + n / 262144, 128 + n / 4096 % 64, 128 + n / 64 % 64, 128 + n % 64]

/-- UTF-8 encoding of a string, as `bytes(s, encoding="utf-8")`. -/
def utf8Bytes (s : String) : List Nat := (s.toList.map charUtf8).flatten

/-- `hashlib.sha256(...).hexdigest()` over the UTF-8 bytes of a string. -/
def sha256hex (s : String) : String := bytesHex (sha256bytes (utf8Bytes s))

/-- Unpacking `key, val = key` for a Python string `key`: iterating a string
yields its characters, so the unpacking succeeds exactly when the string has
length two and otherwise raises `ValueError`. -/
def keyUnpack (key : String) : Except PyError (Char × Char) :=
  match key.toList with
  | [] => Except.error (PyError.valueError "not enough values to unpack (expected 2, got 0)")
  | [_] => Except.error (PyError.valueError "not enough values to unpack (expected 2, got 1)")
  | [c0, c1] => Except.ok (c0, c1)
  | _ => Except.error (PyError.valueError "too many values to unpack (expected 2)")

/-- The byte feed of `hash_vals`: the loop `for key, val in kwargs:` iterates
over the KEYS of the keyword dictionary (in insertion order) and unpacks each
key string into the pair `(key, val)`; the values of the dictionary are never
read.  For each key the hasher is updated with `bytes(key) + b":" +
bytes(str(val)) + b","`, where after the unpacking `key` and `val` are the
two characters of the original key. -/
def hashFeed : List (String × PyVal) → Except PyError String
  | [] => Except.ok ""
  | (key, _) :: rest => do
      let kv ← keyUnpack key
      let tail ← hashFeed rest
      pure (String.mk [kv.1] ++ ":" ++ String.mk [kv.2] ++ "," ++ tail)

/-- `hash_vals(**kwargs)` from `src/session.py`: the keyword arguments are an
ordered association list.  Because of the iteration bug described at
`hashFeed`, the call raises `ValueError` as soon as a key does not have
exactly two characters, and otherwise returns the SHA-256 hexdigest of the
characters of the keys. -/
def hash_vals (kwargs : List (String × PyVal)) : Except PyError String := do
  let feed ← hashFeed kwargs
  pure (sha256hex feed)

/-- `Session.__init__(user_orcid)`: creates the document with its default
and `orcid` namespaces, creates the user agent, and computes the session
identifier with `hash_vals(startTime=date, os=None, directory=None,
host=None)` before creating the session activity and its association edge.
`date` (from `datetime.datetime.now()`) is a parameter. -/
def Session.init (user_orcid : String) (date : Nat) : Except PyError Session :=
  let doc0 : ProvDocument :=
    { defaultNamespace := "https://ccfe.ukaea.uk/",
      namespaces := [("orcid", "https://orcid.org/")],
      agents := [], activities := [], entities := [],
      associations := [], delegations := [], generations := [],
      attributions := [] }
  let userAgent : ProvAgent := { identifier := "orcid:" ++ user_orcid }
  let doc1 := recordAgent doc0 userAgent
  let session_properties : List (String × PyVal) :=
    [("os", PyVal.noneV), ("directory", PyVal.noneV), ("host", PyVal.noneV)]
  match hash_vals (("startTime", PyVal.strV (toString date)) :: session_properties) with
  | Except.error e => Except.error e
  | Except.ok session_id =>
      let activity : ProvActivity :=
        { identifier := session_id, startTime := date, endTime := none,
          attributes := session_properties.map (fun p => (p.1, AttrVal.noneA)) }
      let doc2 := recordActivity doc1 activity
      let doc3 := recordAssociation doc2 activity userAgent
      Except.ok { prov := doc3, session := activity, user := [userAgent] }

/-!
Scoped activation.  The module-level variable `global_session` and the
`old_global_session` attribute written by `Session.__enter__` are modelled by
a `ScopeWorld`: session objects are named by `Nat` identities, `globalSession`
is the module variable and `oldGlobal` maps each session identity to its
`old_global_session` attribute.
-/

/-- The process-wide scoping state: the current `global_session` and the
`old_global_session` attribute of every session object. -/
structure ScopeWorld where
  globalSession : Option Nat
  oldGlobal : Nat → Option Nat

/-- `Session.__enter__`: save the current `global_session` into
`self.old_global_session`, then set `global_session` to `self`. -/
def sessionEnter (self : Nat) (w : ScopeWorld) : ScopeWorld :=
  { globalSession := some self,
    oldGlobal := fun t => if t = self then w.globalSession else w.oldGlobal t }

/-- `Session.__exit__(exc_type, exc_value, exc_traceback)`: restore
`global_session` from `self.old_global_session` irrespective of the
exception information, and return `False` (exceptions are not suppressed). -/
def sessionExit (self : Nat) (_exc : Option PyError) (w : ScopeWorld) :
    ScopeWorld × Bool :=
  ({ w with globalSession := w.oldGlobal self }, false)

/-!
The `generate_prov` decorator.  `utilities.positional_parameters` is not
under `src/`; modelled from the spec: it supplies the wrapped function's
declared fixed parameter names (`param_names`) and the name of its declared
variadic parameter (`var_positional`), which here become parameters of the
wrapper.  Note that line 168 of the source sets `num_positional =
len(var_positional)`: the LENGTH OF THE VARIADIC PARAMETER NAME STRING.
The wrapped function itself is a parameter `func` from argument lists to
`Except PyError PyVal`; `func.__name__` is the parameter `funcName`, and
the two `datetime.datetime.now()` readings are `start_time`/`end_time`.
-/

/-- The `prov.PROV_TYPE` qualified-name constant. -/
def provTypeKey : String := "prov:type"

/-- Dictionary lookup `kwargs.get(k)` on an ordered association list. -/
def kwLookup (k : String) : List (String × PyVal) → Option PyVal
  | [] => none
  | (k2, v) :: rest => if k2 = k then some v else kwLookup k rest

/-- Dictionary deletion `del kwargs[k]`. -/
def kwRemove (k : String) (l : List (String × PyVal)) : List (String × PyVal) :=
  l.filter (fun p => p.1 ≠ k)

/-- Dictionary assignment `d[k] = v`: update in place if the key exists,
otherwise append. -/
def dictSet (d : List (String × String)) (k v : String) : List (String × String) :=
  if d.any (fun p => p.1 = k) then
    d.map (fun p => if p.1 = k then (k, v) else p)
  else d ++ [(k, v)]

/-- Line 171: `session = kwargs.get("sess", global_session)` where the
module variable `global_session` is either `None` or a session. -/
def resolveSession (kwargs : List (String × PyVal)) (gs : PyVal) : PyVal :=
  (kwLookup "sess" kwargs).getD gs

/-- Lines 172-174: `if "sess" in kwargs and not pass_sess: kwargs =
dict(kwargs); del kwargs["sess"]`. -/
def stripSess (pass_sess : Bool) (kwargs : List (String × PyVal)) :
    List (String × PyVal) :=
  if (kwLookup "sess" kwargs).isSome && !pass_sess then kwRemove "sess" kwargs
  else kwargs

/-- The session object held by the resolved `session` value, if any. -/
def sessOf : PyVal → Option Session
  | PyVal.sessionV s => some s
  | _ => none

/-- Evaluation of `session.agent` on the resolved `session` value: an
`AttributeError` if it is not a session object (in particular if it is
`None`), otherwise the `agent` property of the session. -/
def pyAgent : PyVal → Except PyError ProvAgent
  | PyVal.sessionV s => Session.agent s
  | _ => Except.error (PyError.attributeError "object has no attribute agent")

/-- Lines 183-193, the loop over positional arguments.  The accumulators are
`args_prov` (a Python LIST) and `id_attrs`; `activity_attrs` needs no
accumulator because its only write, line 193, is unreachable.  For argument
`i`: the name is `param_names[i]` when `i < num_positional` (an `IndexError`
when `param_names` is shorter) and otherwise `var_positional + str(i -
num_positional)`.  A `DataArray` argument contributes `arg.attrs
["provenance"]` (a `KeyError` when the attribute is missing) to `args_prov`
and its identifier to `id_attrs`; for any other argument the statement
`args_prov[argname] = str(arg)` indexes the list `args_prov` with a string
and raises `TypeError`, so line 193 is never reached. -/
def classifyArgs (param_names : List String) (var_positional : String) :
    Nat → List PyVal → List ProvEntity → List (String × String) →
    Except PyError (List ProvEntity × List (String × String))
  | _, [], args_prov, id_attrs => Except.ok (args_prov, id_attrs)
  | i, arg :: rest, args_prov, id_attrs =>
      let num_positional := var_positional.length
      match (if i < num_positional then
               match param_names.get? i with
               | some nm => Except.ok nm
               | none => Except.error (PyError.indexError "list index out of range")
             else Except.ok (var_positional ++ toString (i - num_positional)) :
             Except PyError String) with
      | Except.error e => Except.error e
      | Except.ok argname =>
          match arg with
          | PyVal.dataArray _ provenance _ =>
              match provenance with
              | some ent =>
                  classifyArgs param_names var_positional (i + 1) rest
                    (args_prov ++ [ent]) (dictSet id_attrs argname ent.identifier)
              | none => Except.error (PyError.keyError "provenance")
          | _ =>
              Except.error
                (PyError.typeError "list indices must be integers or slices, not str")

/-- Lines 194-200, the loop over keyword arguments.  The loop tests
`isinstance(arg, DataArray)` where `arg` is the LEFTOVER variable of the
positional loop: a `NameError` when there was no positional argument.  When
the last positional argument was a `DataArray`, each keyword value `val` has
`val.attrs["provenance"]` read (an `AttributeError` for a value without
`attrs`, a `KeyError` for a `DataArray` without provenance); the branch for
a non-`DataArray` `arg` executes `args_prov[key] = str(key)` and raises
`TypeError` as in the positional loop, so line 200 is never reached. -/
def classifyKwargs (lastArg : Option PyVal) :
    List (String × PyVal) → List ProvEntity → List (String × String) →
    Except PyError (List ProvEntity × List (String × String))
  | [], args_prov, id_attrs => Except.ok (args_prov, id_attrs)
  | (key, val) :: rest, args_prov, id_attrs =>
      match lastArg with
      | none => Except.error (PyError.nameError "name arg is not defined")
      | some arg =>
          match arg with
          | PyVal.dataArray _ _ _ =>
              match val with
              | PyVal.dataArray _ provenance _ =>
                  match provenance with
                  | some ent =>
                      classifyKwargs lastArg rest (args_prov ++ [ent])
                        (dictSet id_attrs key ent.identifier)
                  | none => Except.error (PyError.keyError "provenance")
              | _ =>
                  Except.error
                    (PyError.attributeError "object has no attribute attrs")
          | _ =>
              Except.error
                (PyError.typeError "list indices must be integers or slices, not str")

/-- Lines 212-221: `for i, r in enumerate(result)` over the elements of a
`DataArray` result.  For each element that is itself a `DataArray`, an
entity identifier is computed with `hash_vals(activity=..., position=...,
name=..., **id_attrs)`, the entity is created, `wasGeneratedBy` and
`wasAttributedTo` edges are recorded and the entity is written into the
element's `attrs["provenance"]`.  Errors carry the session state at the
point of the raise. -/
def entLoop (activity_id : String) (id_attrs : List (String × String))
    (end_time : Nat) (curAgent : ProvAgent) :
    Nat → Session → List PyVal → Except (PyError × Session) (Session × List PyVal)
  | _, s, [] => Except.ok (s, [])
  | i, s, r :: rest =>
      match r with
      | PyVal.dataArray rname _ relems =>
          match hash_vals (("activity", PyVal.strV activity_id) ::
              ("position", PyVal.strV (toString i)) ::
              ("name", PyVal.strV rname) ::
              id_attrs.map (fun p => (p.1, PyVal.strV p.2))) with
          | Except.error e => Except.error (e, s)
          | Except.ok entity_id =>
              let ent : ProvEntity := { identifier := entity_id }
              let act : ProvActivity :=
                { identifier := activity_id, startTime := 0, endTime := some end_time,
                  attributes := [] }
              let s1 := { s with prov :=
                (recordAttribution
                  (recordGeneration (recordEntity s.prov ent) ent act end_time)
                  ent curAgent) }
              match entLoop activity_id id_attrs end_time curAgent (i + 1) s1 rest with
              | Except.error es => Except.error es
              | Except.ok (s2, rest2) =>
                  Except.ok (s2, PyVal.dataArray rname (some ent) relems :: rest2)
      | _ =>
          match entLoop activity_id id_attrs end_time curAgent (i + 1) s rest with
          | Except.error es => Except.error es
          | Except.ok (s2, rest2) => Except.ok (s2, r :: rest2)

/-- Lines 201-225 of the wrapper, from `generated_array = False` past the
creation of the activity node to the result handling.  `generated_array` is
initialised to `False` and never reassigned anywhere in the source.  A tuple
result has `result.name` evaluated, which raises `AttributeError`; a
`DataArray` result is iterated by `entLoop`; any surviving path then reaches
`if not generated_array: raise ValueError(...)`. -/
def wrapperTail (sessionVal : PyVal) (result : PyVal) (activity_id : String)
    (start_time end_time : Nat) (activity_attrs : List (String × AttrVal))
    (id_attrs : List (String × String)) (curAgent : ProvAgent) :
    Except PyError PyVal × Option Session :=
  match sessionVal with
  | PyVal.sessionV s =>
      let activity : ProvActivity :=
        { identifier := activity_id, startTime := start_time,
          endTime := some end_time, attributes := activity_attrs }
      let s1 : Session := { s with prov := recordActivity s.prov activity }
      let generated_array := false
      match result with
      | PyVal.tup _ =>
          (Except.error (PyError.attributeError "tuple object has no attribute name"),
           some s1)
      | PyVal.dataArray rname rprov relems =>
          match entLoop activity_id id_attrs end_time curAgent 0 s1 relems with
          | Except.error (e, sErr) => (Except.error e, some sErr)
          | Except.ok (s2, relems2) =>
              if generated_array then
                (Except.ok (PyVal.dataArray rname rprov relems2), some s2)
              else
                (Except.error (PyError.valueError
                  "No DataArray object was produced by the function. Can not assign PROV data."),
                 some s2)
      | _ =>
          if generated_array then (Except.ok result, some s1)
          else
            (Except.error (PyError.valueError
              "No DataArray object was produced by the function. Can not assign PROV data."),
             some s1)
  | _ => (Except.error (PyError.attributeError "object has no attribute prov"),
          sessOf sessionVal)

/-- The wrapper produced by `generate_prov(func, pass_sess)`, lines 170-225.
Its value is the pair of the call outcome and the final state of the
resolved session object (`none` when the resolved `session` value is not a
session object), so that document writes made before an exception would be
observable. -/
def generate_prov_wrapper (param_names : List String) (var_positional : String)
    (funcName : String) (pass_sess : Bool)
    (func : List PyVal → List (String × PyVal) → Except PyError PyVal)
    (global_session : PyVal) (start_time end_time : Nat)
    (args : List PyVal) (kwargs : List (String × PyVal)) :
    Except PyError PyVal × Option Session :=
  let sessionVal := resolveSession kwargs global_session
  let kwargs2 := stripSess pass_sess kwargs
  match func args kwargs2 with
  | Except.error e => (Except.error e, sessOf sessionVal)
  | Except.ok result =>
      match classifyArgs param_names var_positional 0 args [] [] with
      | Except.error e => (Except.error e, sessOf sessionVal)
      | Except.ok (args_prov, id_attrs) =>
          match classifyKwargs args.getLast? kwargs2 args_prov id_attrs with
          | Except.error e => (Except.error e, sessOf sessionVal)
          | Except.ok (_, id_attrs2) =>
              match pyAgent sessionVal with
              | Except.error e => (Except.error e, sessOf sessionVal)
              | Except.ok curAgent =>
                  match hash_vals (("agent", PyVal.strV curAgent.identifier) ::
                      ("date", PyVal.strV (toString end_time)) ::
                      id_attrs2.map (fun p => (p.1, PyVal.strV p.2))) with
                  | Except.error e => (Except.error e, sessOf sessionVal)
                  | Except.ok activity_id =>
                      wrapperTail sessionVal result activity_id start_time end_time
                        ((provTypeKey, AttrVal.strA funcName) ::
                          []) id_attrs2 curAgent

/-!
Concrete fixtures used by witnesses and counterexamples: a session state
holding one primary agent, a second (delegate) agent and some wrapped
computation functions.
-/

/-- A primary (user) agent. -/
def agent0 : ProvAgent := { identifier := "orcid:0000-0001-0000-0000" }

/-- A delegate agent. -/
def agent1 : ProvAgent := { identifier := "softwareagent" }

/-- A document holding the primary agent and nothing else. -/
def doc0 : ProvDocument :=
  { defaultNamespace := "https://ccfe.ukaea.uk/",
    namespaces := [("orcid", "https://orcid.org/")],
    agents := [agent0], activities := [], entities := [],
    associations := [], delegations := [], generations := [],
    attributions := [] }

/-- A session state with the primary agent as the sole stack element. -/
def sess0 : Session :=
  { prov := doc0,
    session := { identifier := "sid", startTime := 0, endTime := none,
                 attributes := [] },
    user := [agent0] }

/-- A session state whose stack holds the primary agent and a delegate. -/
def sess1 : Session := { sess0 with user := [agent0, agent1] }

/-- A wrapped computation function that returns the plain number 5. -/
def funcFive : List PyVal → List (String × PyVal) → Except PyError PyVal :=
  fun _ _ => Except.ok (PyVal.intV 5)

/-- A wrapped computation function that raises. -/
def funcBoom : List PyVal → List (String × PyVal) → Except PyError PyVal :=
  fun _ _ => Except.error (PyError.userError "boom")

/-- A wrapped computation function that raises exactly when it receives a
positional argument. -/
def funcMixed : List PyVal → List (String × PyVal) → Except PyError PyVal :=
  fun a _ =>
    match a with
    | [] => Except.ok (PyVal.intV 1)
    | _ => Except.error (PyError.userError "boom")

/-- Claim C1: the claim states that `hash_vals` returns a fixed-length
hexadecimal digest for every sequence of named fields without raising, with
every value converted to its canonical string form.  The code contradicts
its own docstring and its own callers: iterating the keyword dictionary
yields keys, so `for key, val in kwargs:` unpacks each KEY string and raises
`ValueError` whenever a key does not have exactly two characters.  The field
`startTime` — which `Session.__init__` itself passes — has nine characters,
so `hash_vals(startTime=...)` raises and `Session.__init__` always fails;
moreover for keys that do not raise the VALUE is never read, as witnessed by
two calls with the same two-character key and different values producing the
same digest. -/
theorem hash_vals_unpack_failure :
    hash_vals [("startTime", PyVal.strV "2020-01-01")] =
      Except.error (PyError.valueError "too many values to unpack (expected 2)") ∧
    Session.init "0000-0001-2345-6789" 0 =
      Except.error (PyError.valueError "too many values to unpack (expected 2)") ∧
    hash_vals [("os", PyVal.intV 1)] =
      hash_vals [("os", PyVal.strV "a completely different value")] :=
  ⟨rfl, rfl, rfl⟩

/-- Claim C2, counterexample: on a session whose stack holds only the
primary agent, `pop_agent` does NOT fail with any underflow condition — it
succeeds, removes and returns the primary agent and leaves the agent stack
empty, refuting both "popping when only the primary Agent remains fails"
and "the Agent Stack never becomes empty". -/
theorem pop_sole_primary_no_underflow :
    Session.pop_agent sess0 = Except.ok (agent0, { sess0 with user := [] }) ∧
    ({ sess0 with user := [] } : Session).user = [] :=
  ⟨rfl, rfl⟩

/-- Claim C2, amended: `pop_agent` performs no underflow check; popping a
session whose stack holds only the primary agent unconditionally removes and
returns the primary agent, leaving the stack empty (a further pop then
raises `IndexError`). -/
theorem pop_agent_singleton_removes_primary :
    ∀ (s : Session) (a : ProvAgent), s.user = [a] →
      Session.pop_agent s = Except.ok (a, { s with user := [] }) := by
  intro s a h
  simp [Session.pop_agent, h]

/-- Witness for the amended C2 theorem at the concrete session `sess0`. -/
theorem pop_agent_singleton_removes_primary_witness :
    sess0.user = [agent0] ∧
    Session.pop_agent sess0 = Except.ok (agent0, { sess0 with user := [] }) :=
  ⟨rfl, pop_agent_singleton_removes_primary sess0 agent0 rfl⟩

/-- Claim C10: `pop_agent` never touches the provenance document.  For every
session state with a non-empty agent stack, `pop_agent` removes and returns
the top stack element, and the resulting session state differs from the
original only in the stack: in particular its document is EQUAL to the
original document (no node and no edge is recorded), in contrast with
`push_agent` which records a delegation edge. -/
theorem pop_agent_document_frame :
    ∀ (s : Session) (h : s.user ≠ []),
      Session.pop_agent s =
        Except.ok (s.user.getLast h, { s with user := s.user.dropLast }) ∧
      ({ s with user := s.user.dropLast } : Session).prov = s.prov := by
  intro s h
  refine ⟨?_, rfl⟩
  simp [Session.pop_agent, List.getLast?_eq_getLast s.user h]

/-- Witness for C10 at a concrete two-element stack. -/
theorem pop_agent_document_frame_witness :
    sess1.user ≠ [] ∧
    Session.pop_agent sess1 = Except.ok (agent1, { sess1 with user := [agent0] }) ∧
    ({ sess1 with user := [agent0] } : Session).prov = sess1.prov :=
  ⟨by decide, (pop_agent_document_frame sess1 (by decide)).1,
   (pop_agent_document_frame sess1 (by decide)).2⟩

/-- Claim C7: on any session state with a non-empty agent stack, pushing `a`
makes `a` the current agent, and then popping returns `a` and restores the
current agent to its pre-push value. -/
theorem push_pop_agent_roundtrip :
    ∀ (s : Session) (a : ProvAgent), s.user ≠ [] →
      ∃ s1 s2,
        Session.push_agent s a = Except.ok s1 ∧
        Session.agent s1 = Except.ok a ∧
        Session.pop_agent s1 = Except.ok (a, s2) ∧
        Session.agent s2 = Session.agent s := by
  intro s a h
  cases hL : s.user.getLast? with
  | none => exact absurd (List.getLast?_eq_none_iff.mp hL) h
  | some cur =>
      refine ⟨{ s with prov := recordDelegation s.prov a cur, user := s.user ++ [a] },
              { s with prov := recordDelegation s.prov a cur, user := s.user },
              ?_, ?_, ?_, rfl⟩
      · simp [Session.push_agent, hL]
      · simp [Session.agent, List.getLast?_concat]
      · simp [Session.pop_agent, List.getLast?_concat, List.dropLast_concat]

/-- Witness for C7 at the concrete session `sess0` and delegate `agent1`. -/
theorem push_pop_agent_roundtrip_witness :
    sess0.user ≠ [] ∧
    ∃ s1 s2,
      Session.push_agent sess0 agent1 = Except.ok s1 ∧
      Session.agent s1 = Except.ok agent1 ∧
      Session.pop_agent s1 = Except.ok (agent1, s2) ∧
      Session.agent s2 = Session.agent sess0 :=
  ⟨by decide, push_pop_agent_roundtrip sess0 agent1 (by decide)⟩

/-- Claim C8: pushing agent `a` onto a session whose current agent is `p`
records the delegation edge `actedOnBehalfOf(a, p)` in the document — the
delegator is the PRE-push current agent, which is what "recorded before `a`
is appended" makes observable — and, starting from a document holding no
such edge, the document afterwards contains exactly one such edge. -/
theorem push_agent_delegation_edge :
    ∀ (s : Session) (a : ProvAgent) (h : s.user ≠ []),
      countDelegations s.prov a.identifier (s.user.getLast h).identifier = 0 →
      ∃ s1,
        Session.push_agent s a = Except.ok s1 ∧
        s1.prov.delegations =
          s.prov.delegations ++ [(a.identifier, (s.user.getLast h).identifier)] ∧
        countDelegations s1.prov a.identifier (s.user.getLast h).identifier = 1 ∧
        s1.user = s.user ++ [a] := by
  intro s a h hcount
  refine ⟨{ s with
            prov := recordDelegation s.prov a (s.user.getLast h),
            user := s.user ++ [a] }, ?_, rfl, ?_, rfl⟩
  · simp [Session.push_agent, List.getLast?_eq_getLast s.user h]
  · unfold countDelegations at hcount ⊢
    simp only [recordDelegation, List.filter_append, List.length_append, hcount]
    simp

/-- Witness for C8 at the concrete session `sess0`, whose document holds no
delegation edges, pushing `agent1` on top of `agent0`. -/
theorem push_agent_delegation_edge_witness :
    sess0.user ≠ [] ∧
    countDelegations sess0.prov agent1.identifier agent0.identifier = 0 ∧
    ∃ s1,
      Session.push_agent sess0 agent1 = Except.ok s1 ∧
      countDelegations s1.prov agent1.identifier agent0.identifier = 1 := by
  refine ⟨by decide, by decide, ?_⟩
  obtain ⟨s1, h1, _, h3, _⟩ :=
    push_agent_delegation_edge sess0 agent1 (by decide) (by decide)
  exact ⟨s1, h1, h3⟩

/-- Claim C5: scoped activation is properly nested and restores
unconditionally.  From any scoping state, entering `s1` then `s2` (two
distinct session objects) makes each in turn the current session; the first
exit — whatever exception information it receives — restores `s1`, and the
second exit restores exactly whatever was current before `s1` was entered.
Both exits return `False`, so enclosed exceptions are never suppressed. -/
theorem session_scoping_nested_restore :
    ∀ (w : ScopeWorld) (s1 s2 : Nat) (e1 e2 : Option PyError), s1 ≠ s2 →
      (sessionEnter s1 w).globalSession = some s1 ∧
      (sessionEnter s2 (sessionEnter s1 w)).globalSession = some s2 ∧
      (sessionExit s2 e2 (sessionEnter s2 (sessionEnter s1 w))).1.globalSession =
        some s1 ∧
      (sessionExit s1 e1
        (sessionExit s2 e2 (sessionEnter s2 (sessionEnter s1 w))).1).1.globalSession =
        w.globalSession ∧
      (sessionExit s2 e2 (sessionEnter s2 (sessionEnter s1 w))).2 = false ∧
      (sessionExit s1 e1
        (sessionExit s2 e2 (sessionEnter s2 (sessionEnter s1 w))).1).2 = false := by
  intro w s1 s2 e1 e2 h
  refine ⟨rfl, rfl, ?_, ?_, rfl, rfl⟩
  · simp [sessionEnter, sessionExit]
  · simp [sessionEnter, sessionExit, h]

/-- An initial scoping state: no current session, and no session object has
a saved previous value. -/
def w0 : ScopeWorld := { globalSession := none, oldGlobal := fun _ => none }

/-- Witness for C5: sessions `0` and `1` from the empty scoping state, the
inner scope exiting with a pending exception. -/
theorem session_scoping_nested_restore_witness :
    (0 : Nat) ≠ 1 ∧
    ((sessionEnter 0 w0).globalSession = some 0 ∧
     (sessionEnter 1 (sessionEnter 0 w0)).globalSession = some 1 ∧
     (sessionExit 1 (some (PyError.userError "boom"))
        (sessionEnter 1 (sessionEnter 0 w0))).1.globalSession = some 0 ∧
     (sessionExit 0 none
        (sessionExit 1 (some (PyError.userError "boom"))
          (sessionEnter 1 (sessionEnter 0 w0))).1).1.globalSession =
        w0.globalSession ∧
     (sessionExit 1 (some (PyError.userError "boom"))
        (sessionEnter 1 (sessionEnter 0 w0))).2 = false ∧
     (sessionExit 0 none
        (sessionExit 1 (some (PyError.userError "boom"))
          (sessionEnter 1 (sessionEnter 0 w0))).1).2 = false) :=
  ⟨by decide,
   session_scoping_nested_restore w0 0 1 none (some (PyError.userError "boom"))
     (by decide)⟩

/-- If the wrapped function raises, the wrapper returns that very failure
and the resolved session object is returned untouched (shared helper). -/
theorem wrapperPropagates (param_names : List String) (var_positional : String)
    (funcName : String) (pass_sess : Bool)
    (func : List PyVal → List (String × PyVal) → Except PyError PyVal)
    (global_session : PyVal) (start_time end_time : Nat)
    (args : List PyVal) (kwargs : List (String × PyVal)) (e : PyError)
    (hf : func args (stripSess pass_sess kwargs) = Except.error e) :
    generate_prov_wrapper param_names var_positional funcName pass_sess func
        global_session start_time end_time args kwargs =
      (Except.error e, sessOf (resolveSession kwargs global_session)) := by
  simp only [generate_prov_wrapper, hf]

/-- Claim C4: for every wrapped function and every call in which it raises,
the exception propagates to the caller unmodified, and the wrapper performs
no write to the Document for that call: the resolved session object comes
back exactly equal to its pre-call state (no partial Activity or Entity
node, no relation edge). -/
theorem wrapper_propagates_func_failure :
    ∀ (param_names : List String) (var_positional funcName : String)
      (pass_sess : Bool)
      (func : List PyVal → List (String × PyVal) → Except PyError PyVal)
      (global_session : PyVal) (start_time end_time : Nat)
      (args : List PyVal) (kwargs : List (String × PyVal)) (e : PyError),
      func args (stripSess pass_sess kwargs) = Except.error e →
      generate_prov_wrapper param_names var_positional funcName pass_sess func
          global_session start_time end_time args kwargs =
        (Except.error e, sessOf (resolveSession kwargs global_session)) := by
  intro pn vp fn ps func gs st et args kwargs e hf
  exact wrapperPropagates pn vp fn ps func gs st et args kwargs e hf

/-- Witness for C4: a call on a session state `sess0` (supplied as the
explicit `sess` keyword argument) whose function raises `boom`; the outcome
is that same exception and the session comes back unchanged. -/
theorem wrapper_propagates_func_failure_witness :
    funcBoom [] (stripSess false [("sess", PyVal.sessionV sess0)]) =
      Except.error (PyError.userError "boom") ∧
    generate_prov_wrapper [] "args" "f" false funcBoom PyVal.noneV 0 1 []
        [("sess", PyVal.sessionV sess0)] =
      (Except.error (PyError.userError "boom"),
       sessOf (resolveSession [("sess", PyVal.sessionV sess0)] PyVal.noneV)) :=
  ⟨rfl,
   wrapper_propagates_func_failure [] "args" "f" false funcBoom PyVal.noneV 0 1 []
     [("sess", PyVal.sessionV sess0)] (PyError.userError "boom") rfl⟩

/-- Claim C6, counterexample: with no `sess` keyword argument and no session
ever activated (`global_session` still `None`), a wrapped call does NOT fail
with any session-resolution condition: no check exists, the wrapped function
is invoked anyway, and here its own exception `boom` is exactly what
surfaces to the caller — not a `NoActiveSession` condition. -/
theorem no_active_session_counterexample :
    generate_prov_wrapper [] "args" "f" false funcBoom PyVal.noneV 0 1 [] [] =
      (Except.error (PyError.userError "boom"), none) :=
  rfl

/-- Claim C6, amended: calling a wrapped function with no explicit `sess`
keyword argument and no process-wide current session performs no session
check before the call: the wrapped function is executed with the given
arguments (its own failures propagate to the caller), and when it returns
normally the wrapper only fails afterwards, with an `AttributeError` from
evaluating `session.agent` on `None`, which surfaces to the direct
caller. -/
theorem no_active_session_behavior :
    ∀ (param_names : List String) (var_positional funcName : String)
      (pass_sess : Bool)
      (func : List PyVal → List (String × PyVal) → Except PyError PyVal)
      (start_time end_time : Nat)
      (args : List PyVal) (kwargs : List (String × PyVal))
      (e : PyError) (r : PyVal),
      kwLookup "sess" kwargs = none →
      (func args kwargs = Except.error e →
        generate_prov_wrapper param_names var_positional funcName pass_sess func
            PyVal.noneV start_time end_time args kwargs =
          (Except.error e, none)) ∧
      (func [] [] = Except.ok r →
        generate_prov_wrapper param_names var_positional funcName pass_sess func
            PyVal.noneV start_time end_time [] [] =
          (Except.error (PyError.attributeError "object has no attribute agent"),
           none)) := by
  intro pn vp fn ps func st et args kwargs e r hk
  constructor
  · intro hf
    have hstrip : stripSess ps kwargs = kwargs := by
      simp [stripSess, hk]
    have := wrapperPropagates pn vp fn ps func PyVal.noneV st et args kwargs e
      (by rw [hstrip]; exact hf)
    rw [this]
    simp [resolveSession, hk, sessOf]
  · intro hr
    have hstrip2 : stripSess ps ([] : List (String × PyVal)) = [] := rfl
    simp only [generate_prov_wrapper, hstrip2, hr]
    rfl

/-- Witness for the amended C6 theorem: `funcMixed` raises on a positional
argument and returns a plain number on none; with no session available the
wrapped call propagates `boom` in the first case and fails with the
`AttributeError` after the call in the second. -/
theorem no_active_session_behavior_witness :
    kwLookup "sess" ([] : List (String × PyVal)) = none ∧
    funcMixed [PyVal.intV 7] [] = Except.error (PyError.userError "boom") ∧
    funcMixed [] [] = Except.ok (PyVal.intV 1) ∧
    generate_prov_wrapper [] "args" "f" false funcMixed PyVal.noneV 0 1
        [PyVal.intV 7] [] = (Except.error (PyError.userError "boom"), none) ∧
    generate_prov_wrapper [] "args" "f" false funcMixed PyVal.noneV 0 1 [] [] =
      (Except.error (PyError.attributeError "object has no attribute agent"),
       none) :=
  ⟨rfl, rfl, rfl,
   (no_active_session_behavior [] "args" "f" false funcMixed 0 1 [PyVal.intV 7] []
     (PyError.userError "boom") (PyVal.intV 1) rfl).1 rfl,
   (no_active_session_behavior [] "args" "f" false funcMixed 0 1 [PyVal.intV 7] []
     (PyError.userError "boom") (PyVal.intV 1) rfl).2 rfl⟩


/-- Every path through the tail of the wrapper (lines 201-225) raises:
`generated_array` is `False` and never reassigned, a tuple result fails on
`result.name`, a `DataArray` result either fails inside the entity loop
(`hash_vals` with the eight-character key `activity`) or reaches the final
`if not generated_array` raise, and any other result reaches that raise
directly (shared helper). -/
theorem wrapperTailRaises (sessionVal result : PyVal) (activity_id : String)
    (start_time end_time : Nat) (activity_attrs : List (String × AttrVal))
    (id_attrs : List (String × String)) (curAgent : ProvAgent) :
    ∃ e, (wrapperTail sessionVal result activity_id start_time end_time
            activity_attrs id_attrs curAgent).1 = Except.error e := by
  unfold wrapperTail
  cases sessionVal with
  | sessionV s =>
      cases result with
      | tup elems => exact ⟨_, rfl⟩
      | dataArray rname rprov relems =>
          dsimp only
          split
          · exact ⟨_, rfl⟩
          · exact ⟨_, rfl⟩
      | noneV => exact ⟨_, rfl⟩
      | intV n => exact ⟨_, rfl⟩
      | strV t => exact ⟨_, rfl⟩
      | sessionV s2 => exact ⟨_, rfl⟩
  | noneV => exact ⟨_, rfl⟩
  | intV n => exact ⟨_, rfl⟩
  | strV t => exact ⟨_, rfl⟩
  | tup elems => exact ⟨_, rfl⟩
  | dataArray a b c => exact ⟨_, rfl⟩

/-- Claim C9: the wrapper produced by `generate_prov` never returns
normally.  For every parameter list, wrapped function, global session,
timing and argument list, the call outcome is an exception: either the
wrapped function's own failure, a failure while classifying the arguments,
a failure evaluating `session.agent`, the `ValueError` that `hash_vals`
raises on the five-character key `agent`, or — had all of those been
passed — the final `raise ValueError` guarded by the never-reassigned
`generated_array` flag. -/
theorem wrapper_never_returns_normally :
    ∀ (param_names : List String) (var_positional funcName : String)
      (pass_sess : Bool)
      (func : List PyVal → List (String × PyVal) → Except PyError PyVal)
      (global_session : PyVal) (start_time end_time : Nat)
      (args : List PyVal) (kwargs : List (String × PyVal)),
      ∃ e, (generate_prov_wrapper param_names var_positional funcName pass_sess
              func global_session start_time end_time args kwargs).1 =
        Except.error e := by
  intro pn vp fn ps func gs st et args kwargs
  simp only [generate_prov_wrapper]
  split
  · exact ⟨_, rfl⟩
  · split
    · exact ⟨_, rfl⟩
    · split
      · exact ⟨_, rfl⟩
      · split
        · exact ⟨_, rfl⟩
        · split
          · exact ⟨_, rfl⟩
          · apply wrapperTailRaises

/-- Claim C3: calling a wrapped no-argument function that returns the plain
number 5, with the session `sess0` active as the global session.  The call
raises — but the error is the `ValueError` of the key-unpacking failure
inside `hash_vals` (on the five-character key `agent`), raised BEFORE the
intended "No DataArray object was produced" check at lines 222-224 can run —
and the session object comes back exactly equal to `sess0`: no Activity or
Entity node was added, the Document node count is unchanged (here 1, the
primary agent). -/
theorem wrapper_plain_result_unpack_failure :
    generate_prov_wrapper [] "args" "double" false funcFive
        (PyVal.sessionV sess0) 0 1 [] [] =
      (Except.error (PyError.valueError "too many values to unpack (expected 2)"),
       some sess0) ∧
    nodeCount sess0.prov = 1 :=
  ⟨rfl, rfl⟩
